import Mathlib

/-!
Shallow embedding of the dms3-p2p/go-p2p configuration engine
(`defaults.go` and the options file): the `Config` aggregate, the
functional options, the default-policy table and the two default-applying
entry points (`Defaults`, `FallbackDefaults`).

Go slices distinguish `nil` (unset) from a non-nil empty slice
(explicitly empty); sequence slots are therefore modelled as
`Option (List _)`, with `none` for nil.  Go's `append` keeps a nil slice
nil when zero elements are appended; `goAppend` mirrors that.

Options mutate a `*Config` in place and return an `error`; an
application is modelled as a function from the configuration to the
pair of the error (if any) and the configuration after the call.
-/

namespace P2P

/-- Multiaddrs are opaque validated values produced by the external
address library; modelled as their string form. -/
abbrev Multiaddr := String

abbrev PrivKey := Nat
abbrev PeerstoreV := Nat
abbrev ProtectorV := Nat
abbrev ReporterV := Nat
abbrev ConnMgrV := Nat
abbrev AddrsFactoryV := Nat
abbrev NATManagerC := Nat
abbrev RelayOpt := Nat
abbrev IPNet := Nat

/-- Modelled from the spec: a caller-supplied constructor value for the
constructor adapter (`config.TransportConstructor` /
`SecurityConstructor` / `MuxerConstructor`, which live in the repo's
`config` package, outside `src/`).  It declares a list of parameter
(dependency) kinds and a return kind; a ready-made instance is modelled
as a constructor with no parameters and the expected return kind. -/
structure RawCtor where
  params : List String
  ret : Option String
  deriving DecidableEq, Repr

abbrev TptC := RawCtor
abbrev SecCtor := RawCtor
abbrev MuxCtor := RawCtor

/-- Security entry: `config.MsSecC{SecC: stpt, ID: name}`. -/
structure MsSecC where
  SecC : SecCtor
  ID : String
  deriving DecidableEq, Repr

/-- Muxer entry: `config.MsMuxC{MuxC: mtpt, ID: name}`. -/
structure MsMuxC where
  MuxC : MuxCtor
  ID : String
  deriving DecidableEq, Repr

/-- The Config aggregate (`config.Config` of the repo's `config`
package, outside `src/`); fields are the slots the options in `src/`
read and write.  `Option (List _)` slots model Go nil-vs-empty slices. -/
structure Config where
  PeerKey : Option PrivKey := none
  ListenAddrs : Option (List Multiaddr) := none
  Transports : Option (List TptC) := none
  Muxers : Option (List MsMuxC) := none
  SecurityTransports : Option (List MsSecC) := none
  Insecure : Bool := false
  Peerstore : Option PeerstoreV := none
  Protector : Option ProtectorV := none
  Reporter : Option ReporterV := none
  ConnManager : Option ConnMgrV := none
  AddrsFactory : Option AddrsFactoryV := none
  Relay : Bool := false
  RelayOpts : List RelayOpt := []
  Filters : Option (List IPNet) := none
  NATManager : Option NATManagerC := none
  deriving DecidableEq, Repr

/-- Result of applying an option: the error returned (if any) and the
configuration after the in-place mutation. -/
structure ApplyResult where
  err : Option String
  cfg : Config
  deriving DecidableEq, Repr

abbrev Opt := Config → ApplyResult

/-- Go `append(s, xs...)`: appending zero elements returns the slice
unchanged (nil stays nil); appending at least one yields non-nil. -/
def goAppend {α : Type} (s : Option (List α)) (xs : List α) : Option (List α) :=
  match xs with
  | [] => s
  | _ => some (s.getD [] ++ xs)

/-- Modelled from the spec: `cfg.Apply(opts...)` (method of
`config.Config`, outside `src/`) applies each option in order,
short-circuiting on the first error. -/
def Config.Apply (cfg : Config) (opts : List Opt) : ApplyResult :=
  match opts with
  | [] => ⟨none, cfg⟩
  | o :: rest =>
    let r := o cfg
    match r.err with
    | some e => ⟨some e, r.cfg⟩
    | none => Config.Apply r.cfg rest

/-- Modelled from the spec: `ChainOptions` (outside `src/`) composes a
sequence of options into one option with the same ordered,
short-circuiting semantics. -/
def ChainOptions (opts : List Opt) : Opt := fun cfg => Config.Apply cfg opts

/-- Modelled from the spec: `ma.NewMultiaddr`, the external address
library's parser; an address string is valid when it is in the
protocol/value segment notation (here: starts with a segment
separator). -/
def NewMultiaddr (s : String) : Except String Multiaddr :=
  if s.data.head? = some '/' then .ok s
  else .error ("failed to parse multiaddr " ++ s)

/-- Modelled from the spec: `traceError` (outside `src/`) tags an error
with the source location of the registering call. -/
def traceError (e : Option String) (site : String) : Option String :=
  e.map (fun m => m ++ ", called at " ++ site)

/-- Modelled from the spec: the dependency vocabulary a transport
constructor may draw its parameters from (doc comment of `Transport`). -/
def transportVocab : List String :=
  ["upgrader", "host", "muxer", "security", "protector",
   "peerid", "privkey", "pubkey", "filter", "peerstore"]

/-- Modelled from the spec: the dependency vocabulary for security
transport constructors (doc comment of `Security`). -/
def securityVocab : List String :=
  ["pubkey", "privkey", "peerid", "host", "network", "peerstore"]

/-- Modelled from the spec: the dependency vocabulary for muxer
constructors (doc comment of `Muxer`). -/
def muxerVocab : List String :=
  ["peerid", "host", "network", "peerstore"]

/-- Modelled from the spec: `config.TransportConstructor` accepts the
value when every declared parameter is in the known vocabulary and the
return kind is the transport interface, and rejects it with a
shape-mismatch error otherwise. -/
def TransportConstructor (tpt : RawCtor) : Except String TptC :=
  if tpt.params.all (fun p => transportVocab.contains p) && tpt.ret == some "transport.Transport"
  then .ok tpt
  else .error "transport constructor has an unexpected type"

/-- Modelled from the spec: `config.SecurityConstructor`. -/
def SecurityConstructor (tpt : RawCtor) : Except String SecCtor :=
  if tpt.params.all (fun p => securityVocab.contains p) && tpt.ret == some "security.Transport"
  then .ok tpt
  else .error "security constructor has an unexpected type"

/-- Modelled from the spec: `config.MuxerConstructor`. -/
def MuxerConstructor (tpt : RawCtor) : Except String MuxCtor :=
  if tpt.params.all (fun p => muxerVocab.contains p) && tpt.ret == some "mux.Transport"
  then .ok tpt
  else .error "muxer constructor has an unexpected type"

/-- Loop body of `ListenAddrStrings`: parses each string in turn and
appends it to `cfg.ListenAddrs`, returning the first parse error with
the configuration as already mutated by the earlier iterations. -/
def listenAddrStringsLoop : List String → Config → ApplyResult
  | [], cfg => ⟨none, cfg⟩
  | s :: rest, cfg =>
    match NewMultiaddr s with
    | .error e => ⟨some e, cfg⟩
    | .ok a => listenAddrStringsLoop rest { cfg with ListenAddrs := goAppend cfg.ListenAddrs [a] }

/-- `ListenAddrStrings` configures the node to listen on the given
unparsed addresses. -/
def ListenAddrStrings (ss : List String) : Opt := fun cfg =>
  listenAddrStringsLoop ss cfg

/-- `ListenAddrs` appends the given addresses to the listen-address slot. -/
def ListenAddrs (addrs : List Multiaddr) : Opt := fun cfg =>
  ⟨none, { cfg with ListenAddrs := goAppend cfg.ListenAddrs addrs }⟩

/-- `Security name tpt`: the constructor is adapted at registration time;
the returned option re-raises the (call-site-tagged) adaptation error,
rejects an insecure configuration, and otherwise appends the entry.
`site` models the source location `traceError` captures. -/
def Security (name : String) (site : String) (tpt : RawCtor) : Opt :=
  match traceError (match SecurityConstructor tpt with
                    | .error e => some e
                    | .ok _ => none) site, SecurityConstructor tpt with
  | some msg, _ => fun cfg => ⟨some msg, cfg⟩
  | none, .ok stpt => fun cfg =>
    if cfg.Insecure then
      ⟨some "cannot use security transports with an insecure dms3-p2p configuration", cfg⟩
    else
      ⟨none, { cfg with SecurityTransports := goAppend cfg.SecurityTransports [⟨stpt, name⟩] }⟩
  | none, .error _ => fun cfg => ⟨none, cfg⟩

/-- `NoSecurity` disables all transport security; incompatible with
existing security-transport entries. -/
def NoSecurity : Opt := fun cfg =>
  if 0 < (cfg.SecurityTransports.getD []).length then
    ⟨some "cannot use security transports with an insecure dms3-p2p configuration", cfg⟩
  else ⟨none, { cfg with Insecure := true }⟩

/-- `Muxer name tpt`: like `Security` but for stream multiplexers and
without the insecure check. -/
def Muxer (name : String) (site : String) (tpt : RawCtor) : Opt :=
  match traceError (match MuxerConstructor tpt with
                    | .error e => some e
                    | .ok _ => none) site, MuxerConstructor tpt with
  | some msg, _ => fun cfg => ⟨some msg, cfg⟩
  | none, .ok mtpt => fun cfg =>
    ⟨none, { cfg with Muxers := goAppend cfg.Muxers [⟨mtpt, name⟩] }⟩
  | none, .error _ => fun cfg => ⟨none, cfg⟩

/-- `Transport tpt`: the constructor is adapted at registration time; the
returned option re-raises the tagged adaptation error or appends the
adapted constructor. -/
def Transport (site : String) (tpt : RawCtor) : Opt :=
  match traceError (match TransportConstructor tpt with
                    | .error e => some e
                    | .ok _ => none) site, TransportConstructor tpt with
  | some msg, _ => fun cfg => ⟨some msg, cfg⟩
  | none, .ok tptc => fun cfg =>
    ⟨none, { cfg with Transports := goAppend cfg.Transports [tptc] }⟩
  | none, .error _ => fun cfg => ⟨none, cfg⟩

/-- `Peerstore ps`: single-value slot; errors if already set. -/
def Peerstore (ps : PeerstoreV) : Opt := fun cfg =>
  if cfg.Peerstore.isSome then
    ⟨some "cannot specify multiple peerstore options", cfg⟩
  else ⟨none, { cfg with Peerstore := some ps }⟩

/-- `PrivateNetwork prot`: single-value slot; errors if already set. -/
def PrivateNetwork (prot : ProtectorV) : Opt := fun cfg =>
  if cfg.Protector.isSome then
    ⟨some "cannot specify multiple private network options", cfg⟩
  else ⟨none, { cfg with Protector := some prot }⟩

/-- `BandwidthReporter rep`: single-value slot; errors if already set. -/
def BandwidthReporter (rep : ReporterV) : Opt := fun cfg =>
  if cfg.Reporter.isSome then
    ⟨some "cannot specify multiple bandwidth reporter options", cfg⟩
  else ⟨none, { cfg with Reporter := some rep }⟩

/-- `Identity sk`: single-value slot; errors if already set. -/
def Identity (sk : PrivKey) : Opt := fun cfg =>
  if cfg.PeerKey.isSome then
    ⟨some "cannot specify multiple identities", cfg⟩
  else ⟨none, { cfg with PeerKey := some sk }⟩

/-- `ConnectionManager connman`: single-value slot; errors if already set. -/
def ConnectionManager (connman : ConnMgrV) : Opt := fun cfg =>
  if cfg.ConnManager.isSome then
    ⟨some "cannot specify multiple connection managers", cfg⟩
  else ⟨none, { cfg with ConnManager := some connman }⟩

/-- `AddrsFactory factory`: single-value slot; errors if already set. -/
def AddrsFactory (factory : AddrsFactoryV) : Opt := fun cfg =>
  if cfg.AddrsFactory.isSome then
    ⟨some "cannot specify multiple address factories", cfg⟩
  else ⟨none, { cfg with AddrsFactory := some factory }⟩

/-- `EnableRelay options...` sets the relay flag and replaces the stored
relay options with the argument list; never errors. -/
def EnableRelay (options : List RelayOpt) : Opt := fun cfg =>
  ⟨none, { cfg with Relay := true, RelayOpts := options }⟩

/-- `FilterAddresses addrs...` lazily creates the filter set, then adds
each address; never errors. -/
def FilterAddresses (addrs : List IPNet) : Opt := fun cfg =>
  ⟨none, { cfg with Filters := some (cfg.Filters.getD [] ++ addrs) }⟩

/-- `NATManager nm`: single-value slot; errors if already set. -/
def NATManager (nm : NATManagerC) : Opt := fun cfg =>
  if cfg.NATManager.isSome then
    ⟨some "cannot specify multiple NATManagers", cfg⟩
  else ⟨none, { cfg with NATManager := some nm }⟩

/-- `bhost.NewNATManager`, the default NAT-manager constructor; external,
opaque. -/
def bhostNewNATManager : NATManagerC := 0

/-- `NATPortMap()` is `NATManager` applied to the default constructor. -/
def NATPortMap : Opt := NATManager bhostNewNATManager

/-- `NoListenAddrs` replaces the listen-address slot with an explicitly
empty (non-nil) sequence. -/
def NoListenAddrs : Opt := fun cfg =>
  ⟨none, { cfg with ListenAddrs := some [] }⟩

/-- `NoTransports` replaces the transport slot with an explicitly empty
(non-nil) sequence. -/
def NoTransports : Opt := fun cfg =>
  ⟨none, { cfg with Transports := some [] }⟩

/-! ## Defaults (`defaults.go`) -/

/-- `secio.ID`, the default security protocol identifier; external,
opaque. -/
def secioID : String := "/secio/1.0.0"

/-- `secio.New`, the default security constructor; an external
constructor drawing its dependencies from the security vocabulary. -/
def secioNew : SecCtor := ⟨["privkey"], some "security.Transport"⟩

/-- Registration site of `DefaultSecurity` in `defaults.go`. -/
def defaultSecuritySite : String := "defaults.go:22"

/-- `DefaultSecurity` is `Security(secio.ID, secio.New)`. -/
def DefaultSecurity : Opt := Security secioID defaultSecuritySite secioNew

/-- `yamux.DefaultTransport`, a ready-made muxer instance; external. -/
def yamuxDefaultTransport : MuxCtor := ⟨[], some "mux.Transport"⟩

/-- `mplex.DefaultTransport`, a ready-made muxer instance; external. -/
def mplexDefaultTransport : MuxCtor := ⟨[], some "mux.Transport"⟩

/-- Registration site of `DefaultMuxers` in `defaults.go`. -/
def defaultMuxersSite : String := "defaults.go:29"

/-- `DefaultMuxers` chains the yamux and mplex muxer options. -/
def DefaultMuxers : Opt := ChainOptions
  [Muxer "/yamux/1.0.0" defaultMuxersSite yamuxDefaultTransport,
   Muxer "/mplex/6.7.0" defaultMuxersSite mplexDefaultTransport]

/-- `tcp.NewTCPTransport`, the default TCP transport constructor;
external, drawing its dependency from the transport vocabulary. -/
def tcpNewTCPTransport : TptC := ⟨["upgrader"], some "transport.Transport"⟩

/-- `ws.New`, the default websocket transport constructor; external. -/
def wsNew : TptC := ⟨["upgrader"], some "transport.Transport"⟩

/-- Registration site of `DefaultTransports` in `defaults.go`. -/
def defaultTransportsSite : String := "defaults.go:38"

/-- `DefaultTransports` chains the TCP and websocket transport options. -/
def DefaultTransports : Opt := ChainOptions
  [Transport defaultTransportsSite tcpNewTCPTransport,
   Transport defaultTransportsSite wsNew]

/-- `pstore.NewPeerstore()`, the default peerstore instance; external,
opaque. -/
def pstoreNewPeerstore : PeerstoreV := 0

/-- `DefaultPeerstore` applies `Peerstore(pstore.NewPeerstore())`. -/
def DefaultPeerstore : Opt := fun cfg =>
  Config.Apply cfg [Peerstore pstoreNewPeerstore]

/-- An opaque concrete private key, used to instantiate successful
outcomes of the external key generation. -/
def generatedKey : PrivKey := 0

/-- `RandomIdentity` calls the external key generation
(`crypto.GenerateKeyPairWithReader`, whose outcome `kg` is an explicit
input of the embedding since the generator is outside this core),
returns its error if it failed (`defaults.go:50-52`) before touching the
configuration, and otherwise applies `Identity` with the fresh key. -/
def RandomIdentity (kg : Except String PrivKey) : Opt := fun cfg =>
  match kg with
  | .error e => ⟨some e, cfg⟩
  | .ok priv => Config.Apply cfg [Identity priv]

/-- `DefaultListenAddrs` parses the two wildcard addresses and applies
`ListenAddrs` with both. -/
def DefaultListenAddrs : Opt := fun cfg =>
  match NewMultiaddr "/ip4/0.0.0.0/tcp/0" with
  | .error e => ⟨some e, cfg⟩
  | .ok a4 =>
    match NewMultiaddr "/ip6/::/tcp/0" with
    | .error e => ⟨some e, cfg⟩
    | .ok a6 => Config.Apply cfg [ListenAddrs [a4, a6]]

/-- An entry of the default-policy table: a fallback predicate and the
option to apply when it holds. -/
structure DefaultEntry where
  fallback : Config → Bool
  opt : Opt

/-- Table entry: default listen addresses, gated on transports and
listen addresses both unset. -/
def entryListenAddrs : DefaultEntry :=
  ⟨fun cfg => cfg.Transports.isNone && cfg.ListenAddrs.isNone, DefaultListenAddrs⟩

/-- Table entry: default transports, gated on transports unset. -/
def entryTransports : DefaultEntry :=
  ⟨fun cfg => cfg.Transports.isNone, DefaultTransports⟩

/-- Table entry: default muxers, gated on muxers unset. -/
def entryMuxers : DefaultEntry :=
  ⟨fun cfg => cfg.Muxers.isNone, DefaultMuxers⟩

/-- Table entry: default security, gated on not insecure and
security transports unset. -/
def entrySecurity : DefaultEntry :=
  ⟨fun cfg => !cfg.Insecure && cfg.SecurityTransports.isNone, DefaultSecurity⟩

/-- Table entry: random identity, gated on the peer key unset; carries
the outcome of the external key generation. -/
def entryIdentity (kg : Except String PrivKey) : DefaultEntry :=
  ⟨fun cfg => cfg.PeerKey.isNone, RandomIdentity kg⟩

/-- Table entry: default peerstore, gated on the peerstore unset. -/
def entryPeerstore : DefaultEntry :=
  ⟨fun cfg => cfg.Peerstore.isNone, DefaultPeerstore⟩

/-- The default-policy table of `defaults.go`, in source order;
parametrised by the outcome of the external key generation its identity
entry will observe. -/
def defaultsTable (kg : Except String PrivKey) : List DefaultEntry :=
  [entryListenAddrs, entryTransports, entryMuxers,
   entrySecurity, entryIdentity kg, entryPeerstore]

/-- The loop of `Defaults`: apply every entry's option unconditionally,
short-circuiting on the first error. -/
def runDefaults : List DefaultEntry → Config → ApplyResult
  | [], cfg => ⟨none, cfg⟩
  | d :: rest, cfg =>
    let r := Config.Apply cfg [d.opt]
    match r.err with
    | some e => ⟨some e, r.cfg⟩
    | none => runDefaults rest r.cfg

/-- The loop of `FallbackDefaults`: skip entries whose predicate fails
on the current configuration, apply the others, short-circuiting on the
first error. -/
def runFallback : List DefaultEntry → Config → ApplyResult
  | [], cfg => ⟨none, cfg⟩
  | d :: rest, cfg =>
    if d.fallback cfg then
      let r := Config.Apply cfg [d.opt]
      match r.err with
      | some e => ⟨some e, r.cfg⟩
      | none => runFallback rest r.cfg
    else runFallback rest cfg

/-- `Defaults` applies every default unconditionally. -/
def Defaults (kg : Except String PrivKey) : Opt := runDefaults (defaultsTable kg)

/-- `FallbackDefaults` applies each default whose predicate still holds. -/
def FallbackDefaults (kg : Except String PrivKey) : Opt := runFallback (defaultsTable kg)

/-! ## The options defined by this core, as a syntactic inventory

Used to quantify over "every Option defined by this core". -/

/-- One constructor per option (or option constructor, with its
arguments) exported by the options file and `defaults.go`. -/
inductive CoreOpt where
  | listenAddrStrings (ss : List String)
  | listenAddrs (addrs : List Multiaddr)
  | security (name site : String) (tpt : RawCtor)
  | noSecurity
  | muxer (name site : String) (tpt : RawCtor)
  | transport (site : String) (tpt : RawCtor)
  | peerstore (ps : PeerstoreV)
  | privateNetwork (prot : ProtectorV)
  | bandwidthReporter (rep : ReporterV)
  | identity (sk : PrivKey)
  | connectionManager (cm : ConnMgrV)
  | addrsFactory (f : AddrsFactoryV)
  | enableRelay (opts : List RelayOpt)
  | filterAddresses (addrs : List IPNet)
  | natPortMap
  | natManager (nm : NATManagerC)
  | noListenAddrs
  | noTransports
  | defaultSecurityOpt
  | defaultMuxersOpt
  | defaultTransportsOpt
  | defaultPeerstoreOpt
  | randomIdentityOpt (kg : Except String PrivKey)
  | defaultListenAddrsOpt
  | defaultsOpt (kg : Except String PrivKey)
  | fallbackDefaultsOpt (kg : Except String PrivKey)

/-- The option denoted by each inventory entry. -/
def CoreOpt.interp : CoreOpt → Opt
  | .listenAddrStrings ss => ListenAddrStrings ss
  | .listenAddrs addrs => ListenAddrs addrs
  | .security name site tpt => Security name site tpt
  | .noSecurity => NoSecurity
  | .muxer name site tpt => Muxer name site tpt
  | .transport site tpt => Transport site tpt
  | .peerstore ps => Peerstore ps
  | .privateNetwork prot => PrivateNetwork prot
  | .bandwidthReporter rep => BandwidthReporter rep
  | .identity sk => Identity sk
  | .connectionManager cm => ConnectionManager cm
  | .addrsFactory f => AddrsFactory f
  | .enableRelay opts => EnableRelay opts
  | .filterAddresses addrs => FilterAddresses addrs
  | .natPortMap => NATPortMap
  | .natManager nm => NATManager nm
  | .noListenAddrs => NoListenAddrs
  | .noTransports => NoTransports
  | .defaultSecurityOpt => DefaultSecurity
  | .defaultMuxersOpt => DefaultMuxers
  | .defaultTransportsOpt => DefaultTransports
  | .defaultPeerstoreOpt => DefaultPeerstore
  | .randomIdentityOpt kg => RandomIdentity kg
  | .defaultListenAddrsOpt => DefaultListenAddrs
  | .defaultsOpt kg => Defaults kg
  | .fallbackDefaultsOpt kg => FallbackDefaults kg

/-- Applying a list of core options in order, keeping the configuration
reached so far when one errors (the build then aborts with that
configuration). -/
def applyCoreList : List CoreOpt → Config → Config
  | [], cfg => cfg
  | o :: rest, cfg =>
    let r := o.interp cfg
    match r.err with
    | some _ => r.cfg
    | none => applyCoreList rest r.cfg

/-- The empty configuration a build starts from. -/
def emptyConfig : Config := {}

/-- A configuration is reachable when some sequence of core options
produces it from the empty configuration. -/
def Reachable (cfg : Config) : Prop :=
  ∃ opts : List CoreOpt, cfg = applyCoreList opts emptyConfig

/-! ## Basic lemmas -/

/-- Applying a single option through `Config.Apply` is just applying it. -/
theorem apply_single (cfg : Config) (o : Opt) : Config.Apply cfg [o] = o cfg := by
  cases ho : o cfg with
  | mk err c => cases err <;> simp [Config.Apply, ho]

/-- The secio constructor passes the shape check. -/
theorem securityCtor_secio : SecurityConstructor secioNew = .ok secioNew := rfl

/-- Effect of the default-listen-address option: both wildcard addresses
parse and are appended. -/
theorem DefaultListenAddrs_eq (cfg : Config) : DefaultListenAddrs cfg =
    ⟨none, { cfg with ListenAddrs := some (cfg.ListenAddrs.getD [] ++ ["/ip4/0.0.0.0/tcp/0", "/ip6/::/tcp/0"]) }⟩ := rfl

/-- Effect of the default-transports option: both built-in constructors
pass the shape check and are appended. -/
theorem DefaultTransports_eq (cfg : Config) : DefaultTransports cfg =
    ⟨none, { cfg with Transports := some ((cfg.Transports.getD [] ++ [tcpNewTCPTransport]) ++ [wsNew]) }⟩ := rfl

/-- Effect of the default-muxers option: both built-in muxers pass the
shape check and are appended. -/
theorem DefaultMuxers_eq (cfg : Config) : DefaultMuxers cfg =
    ⟨none, { cfg with Muxers := some ((cfg.Muxers.getD [] ++ [⟨yamuxDefaultTransport, "/yamux/1.0.0"⟩]) ++ [⟨mplexDefaultTransport, "/mplex/6.7.0"⟩]) }⟩ := rfl

/-- Effect of the default-security option on a secure configuration. -/
theorem DefaultSecurity_ok (cfg : Config) (h : cfg.Insecure = false) :
    DefaultSecurity cfg = ⟨none, { cfg with SecurityTransports := some (cfg.SecurityTransports.getD [] ++ [⟨secioNew, secioID⟩]) }⟩ := by
  unfold DefaultSecurity Security
  rw [securityCtor_secio]
  simp [traceError, h, goAppend]

/-- Effect of the default-security option on an insecure configuration:
the mutual-exclusion error, configuration unchanged. -/
theorem DefaultSecurity_err (cfg : Config) (h : cfg.Insecure = true) :
    DefaultSecurity cfg =
      ⟨some "cannot use security transports with an insecure dms3-p2p configuration", cfg⟩ := by
  unfold DefaultSecurity Security
  rw [securityCtor_secio]
  simp [traceError, h]

/-- Effect of the random-identity default when key generation succeeds
and the key slot is unset. -/
theorem RandomIdentity_ok (cfg : Config) (k : PrivKey) (h : cfg.PeerKey = none) :
    RandomIdentity (.ok k) cfg = ⟨none, { cfg with PeerKey := some k }⟩ := by
  simp [RandomIdentity, apply_single, Identity, h]

/-- Effect of the random-identity default when key generation succeeds
but the key slot is set. -/
theorem RandomIdentity_err (cfg : Config) (k k2 : PrivKey) (h : cfg.PeerKey = some k2) :
    RandomIdentity (.ok k) cfg = ⟨some "cannot specify multiple identities", cfg⟩ := by
  simp [RandomIdentity, apply_single, Identity, h]

/-- Effect of the random-identity default when key generation fails: the
generation error is returned, the configuration untouched. -/
theorem RandomIdentity_kgerr (cfg : Config) (e : String) :
    RandomIdentity (.error e) cfg = ⟨some e, cfg⟩ := rfl

/-- Effect of the default-peerstore option when the slot is unset. -/
theorem DefaultPeerstore_ok (cfg : Config) (h : cfg.Peerstore = none) :
    DefaultPeerstore cfg = ⟨none, { cfg with Peerstore := some pstoreNewPeerstore }⟩ := by
  simp [DefaultPeerstore, apply_single, Peerstore, h]

/-- Effect of the default-peerstore option when the slot is set. -/
theorem DefaultPeerstore_err (cfg : Config) (p : PeerstoreV) (h : cfg.Peerstore = some p) :
    DefaultPeerstore cfg = ⟨some "cannot specify multiple peerstore options", cfg⟩ := by
  simp [DefaultPeerstore, apply_single, Peerstore, h]

/-- A fallback entry whose predicate fails on the current configuration
is skipped. -/
theorem runFallback_skip (d : DefaultEntry) (rest : List DefaultEntry) (cfg : Config)
    (h : d.fallback cfg = false) :
    runFallback (d :: rest) cfg = runFallback rest cfg := by
  simp [runFallback, h]

/-- A fallback entry whose predicate holds and whose option errors stops
the pass with that error; later entries are not applied. -/
theorem runFallback_err (d : DefaultEntry) (rest : List DefaultEntry) (cfg c : Config)
    (e : String) (h : d.fallback cfg = true) (ho : d.opt cfg = ⟨some e, c⟩) :
    runFallback (d :: rest) cfg = ⟨some e, c⟩ := by
  simp [runFallback, apply_single, h, ho]

/-- A fallback entry whose predicate holds and whose option succeeds
passes the mutated configuration to the remaining entries. -/
theorem runFallback_ok (d : DefaultEntry) (rest : List DefaultEntry) (cfg c : Config)
    (h : d.fallback cfg = true) (ho : d.opt cfg = ⟨none, c⟩) :
    runFallback (d :: rest) cfg = runFallback rest c := by
  simp [runFallback, apply_single, h, ho]

/-- A strict-defaults entry whose option errors stops the pass. -/
theorem runDefaults_err (d : DefaultEntry) (rest : List DefaultEntry) (cfg c : Config)
    (e : String) (ho : d.opt cfg = ⟨some e, c⟩) :
    runDefaults (d :: rest) cfg = ⟨some e, c⟩ := by
  simp [runDefaults, apply_single, ho]

/-- A strict-defaults entry whose option succeeds passes the mutated
configuration on. -/
theorem runDefaults_ok (d : DefaultEntry) (rest : List DefaultEntry) (cfg c : Config)
    (ho : d.opt cfg = ⟨none, c⟩) :
    runDefaults (d :: rest) cfg = runDefaults rest c := by
  simp [runDefaults, apply_single, ho]

/-- When both the listen-address and the transport slot are unset, the
fallback pass succeeds and fills the listen addresses with the two
default wildcard addresses, in order. -/
theorem fallback_fills_listen_addrs (k : PrivKey) (cfg : Config)
    (hla : cfg.ListenAddrs = none) (htr : cfg.Transports = none) :
    (FallbackDefaults (.ok k) cfg).err = none ∧
    (FallbackDefaults (.ok k) cfg).cfg.ListenAddrs = some ["/ip4/0.0.0.0/tcp/0", "/ip6/::/tcp/0"] := by
  obtain ⟨pk, la, tr, mx, sec, ins, ps, prot, rep, cm, af, rel, ro, fil, nat⟩ := cfg
  simp only [Config.ListenAddrs] at hla
  simp only [Config.Transports] at htr
  subst hla htr
  cases mx <;> cases ins <;> cases sec <;> cases pk <;> cases ps <;>
    simp [FallbackDefaults, defaultsTable, runFallback, apply_single,
          entryListenAddrs, entryTransports, entryMuxers, entrySecurity,
          entryIdentity, entryPeerstore, DefaultListenAddrs_eq, DefaultTransports_eq,
          DefaultMuxers_eq, DefaultSecurity_ok, DefaultSecurity_err, RandomIdentity_ok,
          RandomIdentity_err, DefaultPeerstore_ok, DefaultPeerstore_err]

/-- When the transport slot is set (to any sequence, including the
explicitly empty one), the fallback pass succeeds and leaves both the
listen-address and the transport slot untouched. -/
theorem fallback_preserves_when_transports_set (k : PrivKey) (cfg : Config) (ts : List TptC)
    (htr : cfg.Transports = some ts) :
    (FallbackDefaults (.ok k) cfg).err = none ∧
    (FallbackDefaults (.ok k) cfg).cfg.ListenAddrs = cfg.ListenAddrs ∧
    (FallbackDefaults (.ok k) cfg).cfg.Transports = some ts := by
  obtain ⟨pk, la, tr, mx, sec, ins, ps, prot, rep, cm, af, rel, ro, fil, nat⟩ := cfg
  simp only [Config.Transports] at htr
  subst htr
  cases mx <;> cases ins <;> cases sec <;> cases pk <;> cases ps <;>
    simp [FallbackDefaults, defaultsTable, runFallback, apply_single,
          entryListenAddrs, entryTransports, entryMuxers, entrySecurity,
          entryIdentity, entryPeerstore, DefaultListenAddrs_eq, DefaultTransports_eq,
          DefaultMuxers_eq, DefaultSecurity_ok, DefaultSecurity_err, RandomIdentity_ok,
          RandomIdentity_err, DefaultPeerstore_ok, DefaultPeerstore_err]

/-- When the listen-address slot is set (to any sequence, including the
explicitly empty one), the fallback pass succeeds and leaves it
untouched. -/
theorem fallback_preserves_listen_when_set (k : PrivKey) (cfg : Config) (la : List Multiaddr)
    (hla : cfg.ListenAddrs = some la) :
    (FallbackDefaults (.ok k) cfg).err = none ∧
    (FallbackDefaults (.ok k) cfg).cfg.ListenAddrs = some la := by
  obtain ⟨pk, laf, tr, mx, sec, ins, ps, prot, rep, cm, af, rel, ro, fil, nat⟩ := cfg
  simp only [Config.ListenAddrs] at hla
  subst hla
  cases tr <;> cases mx <;> cases ins <;> cases sec <;> cases pk <;> cases ps <;>
    simp [FallbackDefaults, defaultsTable, runFallback, apply_single,
          entryListenAddrs, entryTransports, entryMuxers, entrySecurity,
          entryIdentity, entryPeerstore, DefaultListenAddrs_eq, DefaultTransports_eq,
          DefaultMuxers_eq, DefaultSecurity_ok, DefaultSecurity_err, RandomIdentity_ok,
          RandomIdentity_err, DefaultPeerstore_ok, DefaultPeerstore_err]

/-! ## Claims -/

/-- C1: when the listen-address slot is unset but the transport slot is
set, the coupled predicate of the default-listen-address entry is false,
the fallback pass completes without error, and the finished
configuration has zero listen addresses. -/
theorem C1_custom_transports_suppress_default_listen (k : PrivKey) (cfg : Config)
    (ts : List TptC)
    (hla : cfg.ListenAddrs = none) (htr : cfg.Transports = some ts) :
    entryListenAddrs.fallback cfg = false ∧
    (FallbackDefaults (.ok k) cfg).err = none ∧
    (FallbackDefaults (.ok k) cfg).cfg.ListenAddrs = none := by
  obtain ⟨he, hl, _⟩ := fallback_preserves_when_transports_set k cfg ts htr
  exact ⟨by simp [entryListenAddrs, htr], he, by rw [hl, hla]⟩

/-- Witness configuration: one custom transport, no listen addresses. -/
def cfgOneTransport : Config := { Transports := some [tcpNewTCPTransport] }

/-- C1 witness at a concrete configuration. -/
theorem C1_witness :
    entryListenAddrs.fallback cfgOneTransport = false ∧
    (FallbackDefaults (.ok generatedKey) cfgOneTransport).err = none ∧
    (FallbackDefaults (.ok generatedKey) cfgOneTransport).cfg.ListenAddrs = none :=
  C1_custom_transports_suppress_default_listen generatedKey cfgOneTransport
    [tcpNewTCPTransport] rfl rfl

/-- C2: applying NoTransports (explicitly empty, non-nil transports) and
then the fallback pass never injects the default transports: the slot is
still the explicitly empty sequence afterwards. -/
theorem C2_noTransports_suppresses_default_transports (k : PrivKey) (cfg : Config) :
    (NoTransports cfg).err = none ∧
    (FallbackDefaults (.ok k) (NoTransports cfg).cfg).err = none ∧
    (FallbackDefaults (.ok k) (NoTransports cfg).cfg).cfg.Transports = some [] := by
  obtain ⟨he, _, ht⟩ :=
    fallback_preserves_when_transports_set k (NoTransports cfg).cfg [] rfl
  exact ⟨rfl, he, ht⟩

/-- C6: with both the transport and the listen-address slot untouched,
the fallback pass sets exactly the two default wildcard addresses, IPv4
first, each with an ephemeral (zero) port. -/
theorem C6_fallback_injects_default_listen_addrs (k : PrivKey) (cfg : Config)
    (htr : cfg.Transports = none) (hla : cfg.ListenAddrs = none) :
    (FallbackDefaults (.ok k) cfg).err = none ∧
    (FallbackDefaults (.ok k) cfg).cfg.ListenAddrs
      = some ["/ip4/0.0.0.0/tcp/0", "/ip6/::/tcp/0"] :=
  fallback_fills_listen_addrs k cfg hla htr

/-- C6 witness at the empty configuration. -/
theorem C6_witness :
    (FallbackDefaults (.ok generatedKey) emptyConfig).err = none ∧
    (FallbackDefaults (.ok generatedKey) emptyConfig).cfg.ListenAddrs
      = some ["/ip4/0.0.0.0/tcp/0", "/ip6/::/tcp/0"] :=
  C6_fallback_injects_default_listen_addrs generatedKey emptyConfig rfl rfl

/-- C9: appending zero addresses to an unset listen-address slot leaves
the configuration unchanged (the slot stays nil), so a later fallback
pass still injects the default listen addresses; NoListenAddrs, which
stores a non-nil empty sequence, suppresses them. -/
theorem C9_empty_listenAddrs_keeps_slot_unset (k : PrivKey) (cfg : Config)
    (hla : cfg.ListenAddrs = none) :
    ListenAddrs [] cfg = ⟨none, cfg⟩ ∧
    (cfg.Transports = none →
      (FallbackDefaults (.ok k) (ListenAddrs [] cfg).cfg).cfg.ListenAddrs
        = some ["/ip4/0.0.0.0/tcp/0", "/ip6/::/tcp/0"]) ∧
    (FallbackDefaults (.ok k) (NoListenAddrs cfg).cfg).cfg.ListenAddrs = some [] := by
  have h1 : ListenAddrs [] cfg = ⟨none, cfg⟩ := rfl
  refine ⟨h1, fun htr => ?_, ?_⟩
  · rw [h1]
    exact (fallback_fills_listen_addrs k cfg hla htr).2
  · exact (fallback_preserves_listen_when_set k (NoListenAddrs cfg).cfg [] rfl).2

/-- C9 witness at the empty configuration. -/
theorem C9_witness :
    ListenAddrs [] emptyConfig = ⟨none, emptyConfig⟩ ∧
    (emptyConfig.Transports = none →
      (FallbackDefaults (.ok generatedKey) (ListenAddrs [] emptyConfig).cfg).cfg.ListenAddrs
        = some ["/ip4/0.0.0.0/tcp/0", "/ip6/::/tcp/0"]) ∧
    (FallbackDefaults (.ok generatedKey) (NoListenAddrs emptyConfig).cfg).cfg.ListenAddrs
      = some [] :=
  C9_empty_listenAddrs_keeps_slot_unset generatedKey emptyConfig rfl

/-- C10: EnableRelay never errors, sets the relay flag, and replaces the
stored relay options with its argument list; a later application wins,
including replacement with the empty list. -/
theorem C10_enableRelay_replaces (opts : List RelayOpt) (cfg : Config) :
    (EnableRelay opts cfg).err = none ∧
    (EnableRelay opts cfg).cfg.Relay = true ∧
    (EnableRelay opts cfg).cfg.RelayOpts = opts ∧
    (∀ opts2 : List RelayOpt,
      (EnableRelay opts2 (EnableRelay opts cfg).cfg).err = none ∧
      (EnableRelay opts2 (EnableRelay opts cfg).cfg).cfg.RelayOpts = opts2) :=
  ⟨rfl, rfl, rfl, fun _ => ⟨rfl, rfl⟩⟩

/-- C3: each single-value slot errors with its "cannot specify multiple"
message when set a second time, and the configuration — in particular
the previously stored value — is unchanged, wherever in an option
sequence the second attempt occurs. -/
theorem C3_single_slots_error_on_second_set :
    (∀ (cfg : Config) (v w : PrivKey), cfg.PeerKey = some v →
      Identity w cfg = ⟨some "cannot specify multiple identities", cfg⟩) ∧
    (∀ (cfg : Config) (v w : PeerstoreV), cfg.Peerstore = some v →
      Peerstore w cfg = ⟨some "cannot specify multiple peerstore options", cfg⟩) ∧
    (∀ (cfg : Config) (v w : ProtectorV), cfg.Protector = some v →
      PrivateNetwork w cfg = ⟨some "cannot specify multiple private network options", cfg⟩) ∧
    (∀ (cfg : Config) (v w : ReporterV), cfg.Reporter = some v →
      BandwidthReporter w cfg = ⟨some "cannot specify multiple bandwidth reporter options", cfg⟩) ∧
    (∀ (cfg : Config) (v w : ConnMgrV), cfg.ConnManager = some v →
      ConnectionManager w cfg = ⟨some "cannot specify multiple connection managers", cfg⟩) ∧
    (∀ (cfg : Config) (v w : AddrsFactoryV), cfg.AddrsFactory = some v →
      AddrsFactory w cfg = ⟨some "cannot specify multiple address factories", cfg⟩) ∧
    (∀ (cfg : Config) (v w : NATManagerC), cfg.NATManager = some v →
      NATManager w cfg = ⟨some "cannot specify multiple NATManagers", cfg⟩) := by
  refine ⟨?_, ?_, ?_, ?_, ?_, ?_, ?_⟩ <;> intro cfg v w h <;>
    simp [Identity, Peerstore, PrivateNetwork, BandwidthReporter,
          ConnectionManager, AddrsFactory, NATManager, h]

/-- Witness configuration: every single-value slot already set. -/
def cfgAllSet : Config :=
  { PeerKey := some 0, Peerstore := some 0, Protector := some 0, Reporter := some 0,
    ConnManager := some 0, AddrsFactory := some 0, NATManager := some 0 }

/-- C3 witness at a concrete configuration with every slot set. -/
theorem C3_witness :
    Identity 1 cfgAllSet = ⟨some "cannot specify multiple identities", cfgAllSet⟩ ∧
    Peerstore 1 cfgAllSet = ⟨some "cannot specify multiple peerstore options", cfgAllSet⟩ ∧
    PrivateNetwork 1 cfgAllSet = ⟨some "cannot specify multiple private network options", cfgAllSet⟩ ∧
    BandwidthReporter 1 cfgAllSet = ⟨some "cannot specify multiple bandwidth reporter options", cfgAllSet⟩ ∧
    ConnectionManager 1 cfgAllSet = ⟨some "cannot specify multiple connection managers", cfgAllSet⟩ ∧
    AddrsFactory 1 cfgAllSet = ⟨some "cannot specify multiple address factories", cfgAllSet⟩ ∧
    NATManager 1 cfgAllSet = ⟨some "cannot specify multiple NATManagers", cfgAllSet⟩ :=
  ⟨C3_single_slots_error_on_second_set.1 cfgAllSet 0 1 rfl,
   C3_single_slots_error_on_second_set.2.1 cfgAllSet 0 1 rfl,
   C3_single_slots_error_on_second_set.2.2.1 cfgAllSet 0 1 rfl,
   C3_single_slots_error_on_second_set.2.2.2.1 cfgAllSet 0 1 rfl,
   C3_single_slots_error_on_second_set.2.2.2.2.1 cfgAllSet 0 1 rfl,
   C3_single_slots_error_on_second_set.2.2.2.2.2.1 cfgAllSet 0 1 rfl,
   C3_single_slots_error_on_second_set.2.2.2.2.2.2 cfgAllSet 0 1 rfl⟩

/-- C5: the fallback pass is `runFallback` on the table in source order;
an entry whose predicate fails on the current configuration is skipped;
an applying entry that errors stops the pass with that error, leaving
later entries unapplied; an applying entry that succeeds hands the
mutated configuration (not a snapshot) to the remaining entries. -/
theorem C5_fallback_pass_semantics :
    (∀ kg : Except String PrivKey, FallbackDefaults kg = runFallback (defaultsTable kg)) ∧
    (∀ (d : DefaultEntry) (rest : List DefaultEntry) (cfg : Config),
      d.fallback cfg = false → runFallback (d :: rest) cfg = runFallback rest cfg) ∧
    (∀ (d : DefaultEntry) (rest : List DefaultEntry) (cfg c : Config) (e : String),
      d.fallback cfg = true → d.opt cfg = ⟨some e, c⟩ →
      runFallback (d :: rest) cfg = ⟨some e, c⟩) ∧
    (∀ (d : DefaultEntry) (rest : List DefaultEntry) (cfg c : Config),
      d.fallback cfg = true → d.opt cfg = ⟨none, c⟩ →
      runFallback (d :: rest) cfg = runFallback rest c) :=
  ⟨fun _ => rfl, runFallback_skip, fun d rest cfg c e h ho => runFallback_err d rest cfg c e h ho,
   fun d rest cfg c h ho => runFallback_ok d rest cfg c h ho⟩

/-- The configuration after the default-listen-address entry fires on
the empty configuration. -/
def cfgDefaultLA : Config := { ListenAddrs := some ["/ip4/0.0.0.0/tcp/0", "/ip6/::/tcp/0"] }

/-- C5 witness: the first table entry fires on the empty configuration
and hands the mutated configuration to the rest of the pass, and is
skipped once the slot is set. -/
theorem C5_witness :
    (entryListenAddrs.fallback emptyConfig = true ∧
     entryListenAddrs.opt emptyConfig = ⟨none, cfgDefaultLA⟩ ∧
     runFallback [entryListenAddrs] emptyConfig = runFallback [] cfgDefaultLA) ∧
    (entryListenAddrs.fallback cfgDefaultLA = false ∧
     runFallback [entryListenAddrs] cfgDefaultLA = runFallback [] cfgDefaultLA) :=
  ⟨⟨rfl, rfl, C5_fallback_pass_semantics.2.2.2 entryListenAddrs [] emptyConfig cfgDefaultLA rfl rfl⟩,
   ⟨rfl, C5_fallback_pass_semantics.2.1 entryListenAddrs [] cfgDefaultLA rfl⟩⟩

/-- C8: a transport constructor whose parameters are not all in the
dependency vocabulary or whose return kind is wrong is rejected by the
adapter at registration time (independently of any configuration); the
returned option yields that error, tagged with the registration call
site, and mutates nothing. -/
theorem C8_bad_transport_ctor_fails_at_registration (tpt : RawCtor)
    (h : ¬(tpt.params.all (fun p => transportVocab.contains p) = true ∧
           tpt.ret = some "transport.Transport")) :
    TransportConstructor tpt = .error "transport constructor has an unexpected type" ∧
    ∀ (site : String) (cfg : Config), Transport site tpt cfg =
      ⟨some ("transport constructor has an unexpected type, called at " ++ site), cfg⟩ := by
  have hc : TransportConstructor tpt = .error "transport constructor has an unexpected type" := by
    unfold TransportConstructor
    rw [if_neg]
    simp only [Bool.and_eq_true, beq_iff_eq]
    exact fun hab => h ⟨hab.1, hab.2⟩
  refine ⟨hc, fun site cfg => ?_⟩
  unfold Transport
  rw [hc]
  rfl

/-- The shape of `func() {}`: no parameters, no results. -/
def funcNoArgsNoResults : RawCtor := ⟨[], none⟩

/-- C8 witness at the test's `Transport(func() {})`. -/
theorem C8_witness :
    ¬(funcNoArgsNoResults.params.all (fun p => transportVocab.contains p) = true ∧
      funcNoArgsNoResults.ret = some "transport.Transport") ∧
    TransportConstructor funcNoArgsNoResults
      = .error "transport constructor has an unexpected type" ∧
    Transport "p2p_test.go:26" funcNoArgsNoResults emptyConfig =
      ⟨some ("transport constructor has an unexpected type, called at p2p_test.go:26"),
       emptyConfig⟩ := by
  have h : ¬(funcNoArgsNoResults.params.all (fun p => transportVocab.contains p) = true ∧
      funcNoArgsNoResults.ret = some "transport.Transport") := by
    intro hab
    exact Option.noConfusion hab.2
  obtain ⟨h1, h2⟩ := C8_bad_transport_ctor_fails_at_registration funcNoArgsNoResults h
  exact ⟨h, h1, h2 "p2p_test.go:26" emptyConfig⟩

/-! ## The insecure / security-transport mutual-exclusion invariant -/

/-- The mutual-exclusion invariant: an insecure configuration has no
security-transport entries. -/
def SecInv (cfg : Config) : Prop :=
  cfg.Insecure = true → cfg.SecurityTransports.getD [] = []

/-- An option preserves the mutual-exclusion invariant. -/
def Preserves (o : Opt) : Prop :=
  ∀ cfg, SecInv cfg → SecInv (o cfg).cfg

/-- An option that changes neither the insecure flag nor the
security-transport slot preserves the invariant. -/
theorem preserves_of_untouched (o : Opt)
    (h : ∀ cfg, (o cfg).cfg.Insecure = cfg.Insecure ∧
          (o cfg).cfg.SecurityTransports = cfg.SecurityTransports) :
    Preserves o := by
  intro cfg hi hins
  rw [(h cfg).2]
  exact hi (by rw [← (h cfg).1]; exact hins)

/-- The `ListenAddrStrings` loop touches only the listen-address slot. -/
theorem listenAddrStringsLoop_untouched (ss : List String) (cfg : Config) :
    (listenAddrStringsLoop ss cfg).cfg.Insecure = cfg.Insecure ∧
    (listenAddrStringsLoop ss cfg).cfg.SecurityTransports = cfg.SecurityTransports := by
  induction ss generalizing cfg with
  | nil => exact ⟨rfl, rfl⟩
  | cons s rest ih =>
    unfold listenAddrStringsLoop
    cases h : NewMultiaddr s with
    | error e => exact ⟨rfl, rfl⟩
    | ok a => exact ih _

/-- `ListenAddrStrings` preserves the invariant. -/
theorem preserves_listenAddrStrings (ss : List String) :
    Preserves (ListenAddrStrings ss) :=
  preserves_of_untouched _ (fun cfg => listenAddrStringsLoop_untouched ss cfg)

/-- `ListenAddrs` preserves the invariant. -/
theorem preserves_listenAddrs (addrs : List Multiaddr) :
    Preserves (ListenAddrs addrs) :=
  preserves_of_untouched _ (fun _ => ⟨rfl, rfl⟩)

/-- The single-value-slot options preserve the invariant. -/
theorem preserves_Identity (sk : PrivKey) : Preserves (Identity sk) := by
  apply preserves_of_untouched
  intro cfg
  unfold Identity
  split <;> exact ⟨rfl, rfl⟩

/-- `Peerstore` preserves the invariant. -/
theorem preserves_Peerstore (ps : PeerstoreV) : Preserves (Peerstore ps) := by
  apply preserves_of_untouched
  intro cfg
  unfold Peerstore
  split <;> exact ⟨rfl, rfl⟩

/-- `PrivateNetwork` preserves the invariant. -/
theorem preserves_PrivateNetwork (prot : ProtectorV) : Preserves (PrivateNetwork prot) := by
  apply preserves_of_untouched
  intro cfg
  unfold PrivateNetwork
  split <;> exact ⟨rfl, rfl⟩

/-- `BandwidthReporter` preserves the invariant. -/
theorem preserves_BandwidthReporter (rep : ReporterV) : Preserves (BandwidthReporter rep) := by
  apply preserves_of_untouched
  intro cfg
  unfold BandwidthReporter
  split <;> exact ⟨rfl, rfl⟩

/-- `ConnectionManager` preserves the invariant. -/
theorem preserves_ConnectionManager (cm : ConnMgrV) : Preserves (ConnectionManager cm) := by
  apply preserves_of_untouched
  intro cfg
  unfold ConnectionManager
  split <;> exact ⟨rfl, rfl⟩

/-- `AddrsFactory` preserves the invariant. -/
theorem preserves_AddrsFactory (f : AddrsFactoryV) : Preserves (AddrsFactory f) := by
  apply preserves_of_untouched
  intro cfg
  unfold AddrsFactory
  split <;> exact ⟨rfl, rfl⟩

/-- `NATManager` preserves the invariant. -/
theorem preserves_NATManager (nm : NATManagerC) : Preserves (NATManager nm) := by
  apply preserves_of_untouched
  intro cfg
  unfold NATManager
  split <;> exact ⟨rfl, rfl⟩

/-- `EnableRelay` preserves the invariant. -/
theorem preserves_EnableRelay (opts : List RelayOpt) : Preserves (EnableRelay opts) :=
  preserves_of_untouched _ (fun _ => ⟨rfl, rfl⟩)

/-- `FilterAddresses` preserves the invariant. -/
theorem preserves_FilterAddresses (addrs : List IPNet) : Preserves (FilterAddresses addrs) :=
  preserves_of_untouched _ (fun _ => ⟨rfl, rfl⟩)

/-- `NoListenAddrs` preserves the invariant. -/
theorem preserves_NoListenAddrs : Preserves NoListenAddrs :=
  preserves_of_untouched _ (fun _ => ⟨rfl, rfl⟩)

/-- `NoTransports` preserves the invariant. -/
theorem preserves_NoTransports : Preserves NoTransports :=
  preserves_of_untouched _ (fun _ => ⟨rfl, rfl⟩)

/-- `Transport` preserves the invariant. -/
theorem preserves_Transport (site : String) (tpt : RawCtor) :
    Preserves (Transport site tpt) := by
  apply preserves_of_untouched
  intro cfg
  unfold Transport
  cases h : TransportConstructor tpt <;> simp [traceError, h]

/-- `Muxer` preserves the invariant. -/
theorem preserves_Muxer (name site : String) (tpt : RawCtor) :
    Preserves (Muxer name site tpt) := by
  apply preserves_of_untouched
  intro cfg
  unfold Muxer
  cases h : MuxerConstructor tpt <;> simp [traceError, h]

/-- `Security` preserves the invariant: it checks the insecure flag
before appending. -/
theorem preserves_Security (name site : String) (tpt : RawCtor) :
    Preserves (Security name site tpt) := by
  intro cfg hi
  unfold Security
  cases hc : SecurityConstructor tpt with
  | error msg =>
    simp [traceError, hc]
    exact hi
  | ok stpt =>
    simp only [traceError, hc, Option.map_none]
    cases hins : cfg.Insecure with
    | true =>
      simp [hins]
      exact hi
    | false =>
      simp [hins]
      intro habs
      simp [hins] at habs

/-- `NoSecurity` preserves the invariant: it refuses to set the flag
while security-transport entries exist. -/
theorem preserves_NoSecurity : Preserves NoSecurity := by
  intro cfg hi
  unfold NoSecurity
  by_cases hlen : 0 < (cfg.SecurityTransports.getD []).length
  · simp only [hlen, if_pos]
    exact hi
  · simp only [hlen, if_neg, if_false]
    intro _
    exact List.length_eq_zero.mp (Nat.eq_zero_of_not_pos hlen)

/-- Applying a single option through `Config.Apply` preserves the
invariant when the option does. -/
theorem preserves_apply_one (o : Opt) (h : Preserves o) :
    ∀ cfg, SecInv cfg → SecInv (Config.Apply cfg [o]).cfg := by
  intro cfg hi
  rw [apply_single]
  exact h cfg hi

/-- `RandomIdentity` preserves the invariant for every generation
outcome. -/
theorem preserves_RandomIdentity (kg : Except String PrivKey) :
    Preserves (RandomIdentity kg) := by
  intro cfg hi
  cases kg with
  | error e => exact hi
  | ok k =>
    show SecInv (Config.Apply cfg [Identity k]).cfg
    exact preserves_apply_one (Identity k) (preserves_Identity k) cfg hi

/-- Sequential application through `Config.Apply` preserves the
invariant when every option in the list does. -/
theorem preserves_apply (opts : List Opt) (h : ∀ o ∈ opts, Preserves o) :
    ∀ cfg, SecInv cfg → SecInv (Config.Apply cfg opts).cfg := by
  induction opts with
  | nil => exact fun cfg hi => hi
  | cons o rest ih =>
    intro cfg hi
    cases he : (o cfg).err with
    | some e =>
      have hr : Config.Apply cfg (o :: rest) = ⟨some e, (o cfg).cfg⟩ := by
        simp [Config.Apply, he]
      rw [hr]
      exact (h o (List.mem_cons_self o rest)) cfg hi
    | none =>
      have hr : Config.Apply cfg (o :: rest) = Config.Apply (o cfg).cfg rest := by
        simp [Config.Apply, he]
      rw [hr]
      exact ih (fun o' ho' => h o' (List.mem_cons_of_mem _ ho')) _
        ((h o (List.mem_cons_self o rest)) cfg hi)

/-- The strict defaults loop preserves the invariant when every entry's
option does. -/
theorem preserves_runDefaults (tbl : List DefaultEntry)
    (h : ∀ d ∈ tbl, Preserves d.opt) :
    ∀ cfg, SecInv cfg → SecInv (runDefaults tbl cfg).cfg := by
  induction tbl with
  | nil => exact fun cfg hi => hi
  | cons d rest ih =>
    intro cfg hi
    have hd := h d (List.mem_cons_self d rest)
    cases he : (d.opt cfg).err with
    | some e =>
      have hr : runDefaults (d :: rest) cfg = ⟨some e, (d.opt cfg).cfg⟩ := by
        simp [runDefaults, apply_single, he]
      rw [hr]
      exact hd cfg hi
    | none =>
      have hr : runDefaults (d :: rest) cfg = runDefaults rest (d.opt cfg).cfg := by
        simp [runDefaults, apply_single, he]
      rw [hr]
      exact ih (fun d' hd' => h d' (List.mem_cons_of_mem _ hd')) _ (hd cfg hi)

/-- The fallback loop preserves the invariant when every entry's option
does. -/
theorem preserves_runFallback (tbl : List DefaultEntry)
    (h : ∀ d ∈ tbl, Preserves d.opt) :
    ∀ cfg, SecInv cfg → SecInv (runFallback tbl cfg).cfg := by
  induction tbl with
  | nil => exact fun cfg hi => hi
  | cons d rest ih =>
    intro cfg hi
    have hd := h d (List.mem_cons_self d rest)
    have hrest : ∀ d' ∈ rest, Preserves d'.opt :=
      fun d' hd' => h d' (List.mem_cons_of_mem _ hd')
    by_cases hf : d.fallback cfg = true
    · cases he : (d.opt cfg).err with
      | some e =>
        have hr : runFallback (d :: rest) cfg = ⟨some e, (d.opt cfg).cfg⟩ :=
          runFallback_err d rest cfg _ e hf (by rw [← he])
        rw [hr]
        exact hd cfg hi
      | none =>
        have hr : runFallback (d :: rest) cfg = runFallback rest (d.opt cfg).cfg :=
          runFallback_ok d rest cfg _ hf (by rw [← he])
        rw [hr]
        exact ih hrest _ (hd cfg hi)
    · rw [runFallback_skip d rest cfg (Bool.of_not_eq_true hf)]
      exact ih hrest cfg hi

/-- Every entry of the default table preserves the invariant, whatever
the key-generation outcome. -/
theorem preserves_defaultsTable (kg : Except String PrivKey) :
    ∀ d ∈ defaultsTable kg, Preserves d.opt := by
  intro d hd
  simp only [defaultsTable, List.mem_cons, List.not_mem_nil, or_false] at hd
  rcases hd with h | h | h | h | h | h <;> subst h
  · exact preserves_of_untouched _ (fun _ => ⟨rfl, rfl⟩)
  · exact fun cfg hi => preserves_apply _
      (by
        intro o ho
        simp only [List.mem_cons, List.not_mem_nil, or_false] at ho
        rcases ho with h | h <;> subst h <;> exact preserves_Transport _ _) cfg hi
  · exact fun cfg hi => preserves_apply _
      (by
        intro o ho
        simp only [List.mem_cons, List.not_mem_nil, or_false] at ho
        rcases ho with h | h <;> subst h <;> exact preserves_Muxer _ _ _) cfg hi
  · exact preserves_Security _ _ _
  · exact preserves_RandomIdentity kg
  · exact fun cfg hi => preserves_apply _
      (by
        intro o ho
        simp only [List.mem_cons, List.not_mem_nil, or_false] at ho
        subst ho
        exact preserves_Peerstore _) cfg hi

/-- Every core option preserves the invariant. -/
theorem preserves_interp (o : CoreOpt) : Preserves o.interp := by
  cases o with
  | listenAddrStrings ss => exact preserves_listenAddrStrings ss
  | listenAddrs addrs => exact preserves_listenAddrs addrs
  | security name site tpt => exact preserves_Security name site tpt
  | noSecurity => exact preserves_NoSecurity
  | muxer name site tpt => exact preserves_Muxer name site tpt
  | transport site tpt => exact preserves_Transport site tpt
  | peerstore ps => exact preserves_Peerstore ps
  | privateNetwork prot => exact preserves_PrivateNetwork prot
  | bandwidthReporter rep => exact preserves_BandwidthReporter rep
  | identity sk => exact preserves_Identity sk
  | connectionManager cm => exact preserves_ConnectionManager cm
  | addrsFactory f => exact preserves_AddrsFactory f
  | enableRelay opts => exact preserves_EnableRelay opts
  | filterAddresses addrs => exact preserves_FilterAddresses addrs
  | natPortMap => exact preserves_NATManager bhostNewNATManager
  | natManager nm => exact preserves_NATManager nm
  | noListenAddrs => exact preserves_NoListenAddrs
  | noTransports => exact preserves_NoTransports
  | defaultSecurityOpt => exact preserves_Security _ _ _
  | defaultMuxersOpt =>
    exact preserves_defaultsTable (.ok generatedKey) entryMuxers (by simp [defaultsTable])
  | defaultTransportsOpt =>
    exact preserves_defaultsTable (.ok generatedKey) entryTransports (by simp [defaultsTable])
  | defaultPeerstoreOpt =>
    exact preserves_defaultsTable (.ok generatedKey) entryPeerstore (by simp [defaultsTable])
  | randomIdentityOpt kg => exact preserves_RandomIdentity kg
  | defaultListenAddrsOpt =>
    exact preserves_defaultsTable (.ok generatedKey) entryListenAddrs (by simp [defaultsTable])
  | defaultsOpt kg =>
    exact fun cfg hi => preserves_runDefaults _ (preserves_defaultsTable kg) cfg hi
  | fallbackDefaultsOpt kg =>
    exact fun cfg hi => preserves_runFallback _ (preserves_defaultsTable kg) cfg hi

/-- Applying any sequence of core options from an invariant-satisfying
configuration keeps the invariant. -/
theorem secInv_applyCoreList (opts : List CoreOpt) (cfg : Config) (hi : SecInv cfg) :
    SecInv (applyCoreList opts cfg) := by
  induction opts generalizing cfg with
  | nil => exact hi
  | cons o rest ih =>
    cases he : (o.interp cfg).err with
    | some e =>
      have hr : applyCoreList (o :: rest) cfg = (o.interp cfg).cfg := by
        simp [applyCoreList, he]
      rw [hr]
      exact preserves_interp o cfg hi
    | none =>
      have hr : applyCoreList (o :: rest) cfg = applyCoreList rest (o.interp cfg).cfg := by
        simp [applyCoreList, he]
      rw [hr]
      exact ih _ (preserves_interp o cfg hi)

/-- C4: the insecure flag and a non-empty security-transport sequence
are mutually exclusive in both orders — NoSecurity errors and leaves the
configuration unchanged when a security entry exists, a (shape-valid)
Security option errors and leaves the configuration unchanged when the
insecure flag is set — and consequently no reachable configuration has
both. -/
theorem C4_insecure_mutual_exclusion :
    (∀ cfg : Config, 0 < (cfg.SecurityTransports.getD []).length →
      NoSecurity cfg =
        ⟨some "cannot use security transports with an insecure dms3-p2p configuration", cfg⟩) ∧
    (∀ (cfg : Config) (name site : String) (tpt : RawCtor) (stpt : SecCtor),
      SecurityConstructor tpt = .ok stpt → cfg.Insecure = true →
      Security name site tpt cfg =
        ⟨some "cannot use security transports with an insecure dms3-p2p configuration", cfg⟩) ∧
    (∀ cfg : Config, Reachable cfg →
      ¬(cfg.Insecure = true ∧ 0 < (cfg.SecurityTransports.getD []).length)) := by
  refine ⟨?_, ?_, ?_⟩
  · intro cfg h
    simp [NoSecurity, h]
  · intro cfg name site tpt stpt hok hins
    unfold Security
    simp [hok, traceError, hins]
  · rintro cfg ⟨opts, hcfg⟩ ⟨hins, hlen⟩
    subst hcfg
    have hinv : SecInv (applyCoreList opts emptyConfig) :=
      secInv_applyCoreList opts emptyConfig (fun _ => rfl)
    rw [hinv hins] at hlen
    exact Nat.lt_irrefl 0 hlen

/-- Witness configuration with one security-transport entry. -/
def cfgOneSecurity : Config := { SecurityTransports := some [⟨secioNew, secioID⟩] }

/-- Witness configuration with the insecure flag set. -/
def cfgInsecure : Config := { Insecure := true }

/-- C4 witness: both orders of the conflict at concrete configurations,
and the invariant at a concrete reachable configuration. -/
theorem C4_witness :
    (0 < (cfgOneSecurity.SecurityTransports.getD []).length ∧
      NoSecurity cfgOneSecurity =
        ⟨some "cannot use security transports with an insecure dms3-p2p configuration",
         cfgOneSecurity⟩) ∧
    (SecurityConstructor secioNew = .ok secioNew ∧ cfgInsecure.Insecure = true ∧
      Security secioID "app.go:10" secioNew cfgInsecure =
        ⟨some "cannot use security transports with an insecure dms3-p2p configuration",
         cfgInsecure⟩) ∧
    (Reachable emptyConfig ∧
      ¬(emptyConfig.Insecure = true ∧ 0 < (emptyConfig.SecurityTransports.getD []).length)) :=
  ⟨⟨Nat.zero_lt_one, C4_insecure_mutual_exclusion.1 cfgOneSecurity Nat.zero_lt_one⟩,
   ⟨rfl, rfl,
    C4_insecure_mutual_exclusion.2.1 cfgInsecure secioID "app.go:10" secioNew secioNew rfl rfl⟩,
   ⟨⟨[], rfl⟩, C4_insecure_mutual_exclusion.2.2 emptyConfig ⟨[], rfl⟩⟩⟩

/-- A failing outcome of the external key generation
(`crypto.GenerateKeyPairWithReader` in `defaults.go:49-52`). -/
def kgFailure : Except String PrivKey := .error "key generation failed"

/-- C7 counterexample: three options of this core fail non-atomically.
`ListenAddrStrings` on a list whose second address is malformed errors
with the first address already appended; `Defaults` and
`FallbackDefaults` under a key-generation failure error at the identity
entry with the earlier entries (listen addresses among them) already
applied.  In each case the result errors yet the configuration changed. -/
theorem C7_counterexample_nonatomic_options :
    (((CoreOpt.listenAddrStrings ["/ip4/127.0.0.1/tcp/4", "bogus"]).interp emptyConfig).err.isSome
       = true ∧
     ((CoreOpt.listenAddrStrings ["/ip4/127.0.0.1/tcp/4", "bogus"]).interp emptyConfig).cfg
       ≠ emptyConfig) ∧
    (((CoreOpt.defaultsOpt kgFailure).interp emptyConfig).err.isSome = true ∧
     ((CoreOpt.defaultsOpt kgFailure).interp emptyConfig).cfg ≠ emptyConfig) ∧
    (((CoreOpt.fallbackDefaultsOpt kgFailure).interp emptyConfig).err.isSome = true ∧
     ((CoreOpt.fallbackDefaultsOpt kgFailure).interp emptyConfig).cfg ≠ emptyConfig) := by
  refine ⟨⟨rfl, ?_⟩, ⟨rfl, ?_⟩, ⟨rfl, ?_⟩⟩
  · intro h
    have hla : (((CoreOpt.listenAddrStrings ["/ip4/127.0.0.1/tcp/4", "bogus"]).interp
        emptyConfig).cfg).ListenAddrs = none := by rw [h]; rfl
    exact Option.noConfusion hla
  · intro h
    have hla : (((CoreOpt.defaultsOpt kgFailure).interp emptyConfig).cfg).ListenAddrs
        = none := by rw [h]; rfl
    exact Option.noConfusion hla
  · intro h
    have hla : (((CoreOpt.fallbackDefaultsOpt kgFailure).interp emptyConfig).cfg).ListenAddrs
        = none := by rw [h]; rfl
    exact Option.noConfusion hla

/-- C7 amended: every option of this core except `ListenAddrStrings`
(which appends each parsed address before parsing the next), the
composite `Defaults` and the composite `FallbackDefaults` (which both
apply the table's sub-options sequentially, so a failure — for example a
key-generation failure at the identity entry — leaves earlier entries
applied) is atomic on failure: if applying it returns an error, the
configuration is unchanged. -/
theorem C7_amended_options_atomic_on_error (o : CoreOpt)
    (h1 : ∀ ss, o ≠ CoreOpt.listenAddrStrings ss)
    (h2 : ∀ kg, o ≠ CoreOpt.defaultsOpt kg)
    (h3 : ∀ kg, o ≠ CoreOpt.fallbackDefaultsOpt kg)
    (cfg : Config) (e : String)
    (he : (o.interp cfg).err = some e) :
    (o.interp cfg).cfg = cfg := by
  cases o with
  | listenAddrStrings ss => exact absurd rfl (h1 ss)
  | defaultsOpt kg => exact absurd rfl (h2 kg)
  | fallbackDefaultsOpt kg => exact absurd rfl (h3 kg)
  | listenAddrs addrs => exact absurd he (by simp [CoreOpt.interp, ListenAddrs])
  | enableRelay opts => exact absurd he (by simp [CoreOpt.interp, EnableRelay])
  | filterAddresses addrs => exact absurd he (by simp [CoreOpt.interp, FilterAddresses])
  | noListenAddrs => exact absurd he (by simp [CoreOpt.interp, NoListenAddrs])
  | noTransports => exact absurd he (by simp [CoreOpt.interp, NoTransports])
  | peerstore ps =>
    simp only [CoreOpt.interp] at he ⊢
    unfold Peerstore at he ⊢
    split at he <;> simp_all
  | privateNetwork prot =>
    simp only [CoreOpt.interp] at he ⊢
    unfold PrivateNetwork at he ⊢
    split at he <;> simp_all
  | bandwidthReporter rep =>
    simp only [CoreOpt.interp] at he ⊢
    unfold BandwidthReporter at he ⊢
    split at he <;> simp_all
  | identity sk =>
    simp only [CoreOpt.interp] at he ⊢
    unfold Identity at he ⊢
    split at he <;> simp_all
  | connectionManager cm =>
    simp only [CoreOpt.interp] at he ⊢
    unfold ConnectionManager at he ⊢
    split at he <;> simp_all
  | addrsFactory f =>
    simp only [CoreOpt.interp] at he ⊢
    unfold AddrsFactory at he ⊢
    split at he <;> simp_all
  | natManager nm =>
    simp only [CoreOpt.interp] at he ⊢
    unfold NATManager at he ⊢
    split at he <;> simp_all
  | natPortMap =>
    simp only [CoreOpt.interp] at he ⊢
    unfold NATPortMap NATManager at he ⊢
    split at he <;> simp_all
  | noSecurity =>
    simp only [CoreOpt.interp] at he ⊢
    unfold NoSecurity at he ⊢
    split at he <;> simp_all
  | security name site tpt =>
    simp only [CoreOpt.interp] at he ⊢
    unfold Security at he ⊢
    cases hc : SecurityConstructor tpt with
    | error msg => simp [traceError, hc]
    | ok stpt =>
      cases hins : cfg.Insecure with
      | true => simp [traceError, hc, hins]
      | false => simp [traceError, hc, hins] at he
  | muxer name site tpt =>
    simp only [CoreOpt.interp] at he ⊢
    unfold Muxer at he ⊢
    cases hc : MuxerConstructor tpt with
    | error msg => simp [traceError, hc]
    | ok mtpt => simp [traceError, hc] at he
  | transport site tpt =>
    simp only [CoreOpt.interp] at he ⊢
    unfold Transport at he ⊢
    cases hc : TransportConstructor tpt with
    | error msg => simp [traceError, hc]
    | ok tptc => simp [traceError, hc] at he
  | defaultSecurityOpt =>
    show (DefaultSecurity cfg).cfg = cfg
    have he' : (DefaultSecurity cfg).err = some e := he
    cases hins : cfg.Insecure with
    | true => rw [DefaultSecurity_err cfg hins]
    | false =>
      rw [DefaultSecurity_ok cfg hins] at he'
      exact Option.noConfusion he'
  | defaultMuxersOpt =>
    have he' : (DefaultMuxers cfg).err = some e := he
    rw [DefaultMuxers_eq cfg] at he'
    exact Option.noConfusion he'
  | defaultTransportsOpt =>
    have he' : (DefaultTransports cfg).err = some e := he
    rw [DefaultTransports_eq cfg] at he'
    exact Option.noConfusion he'
  | defaultListenAddrsOpt =>
    have he' : (DefaultListenAddrs cfg).err = some e := he
    rw [DefaultListenAddrs_eq cfg] at he'
    exact Option.noConfusion he'
  | randomIdentityOpt kg =>
    cases kg with
    | error e2 => rfl
    | ok k =>
      show (RandomIdentity (.ok k) cfg).cfg = cfg
      have he' : (RandomIdentity (.ok k) cfg).err = some e := he
      cases hpk : cfg.PeerKey with
      | none =>
        rw [RandomIdentity_ok cfg k hpk] at he'
        exact Option.noConfusion he'
      | some k2 => rw [RandomIdentity_err cfg k k2 hpk]
  | defaultPeerstoreOpt =>
    show (DefaultPeerstore cfg).cfg = cfg
    have he' : (DefaultPeerstore cfg).err = some e := he
    cases hps : cfg.Peerstore with
    | none =>
      rw [DefaultPeerstore_ok cfg hps] at he'
      exact Option.noConfusion he'
    | some p => rw [DefaultPeerstore_err cfg p hps]
/-- Witness configuration with one security-transport entry, for the
atomicity witness. -/
def cfgSecuritySet : Config := { SecurityTransports := some [⟨secioNew, secioID⟩] }

/-- C7 witness: NoSecurity on a configuration with a security entry
errors and leaves the configuration unchanged. -/
theorem C7_witness :
    (∀ ss, CoreOpt.noSecurity ≠ CoreOpt.listenAddrStrings ss) ∧
    (∀ kg, CoreOpt.noSecurity ≠ CoreOpt.defaultsOpt kg) ∧
    (∀ kg, CoreOpt.noSecurity ≠ CoreOpt.fallbackDefaultsOpt kg) ∧
    (CoreOpt.noSecurity.interp cfgSecuritySet).err =
      some "cannot use security transports with an insecure dms3-p2p configuration" ∧
    (CoreOpt.noSecurity.interp cfgSecuritySet).cfg = cfgSecuritySet := by
  have h1 : ∀ ss, CoreOpt.noSecurity ≠ CoreOpt.listenAddrStrings ss := by
    intro ss h
    exact CoreOpt.noConfusion h
  have h2 : ∀ kg, CoreOpt.noSecurity ≠ CoreOpt.defaultsOpt kg := by
    intro kg h
    exact CoreOpt.noConfusion h
  have h3 : ∀ kg, CoreOpt.noSecurity ≠ CoreOpt.fallbackDefaultsOpt kg := by
    intro kg h
    exact CoreOpt.noConfusion h
  have he : (CoreOpt.noSecurity.interp cfgSecuritySet).err =
      some "cannot use security transports with an insecure dms3-p2p configuration" := rfl
  exact ⟨h1, h2, h3, he,
    C7_amended_options_atomic_on_error CoreOpt.noSecurity h1 h2 h3 cfgSecuritySet _ he⟩

end P2P
